import Mathlib

/-!
Verification of the Lightbox gallery component of `src/js/scripts.js`
(class `Lightbox`, lines 161-283).

The embedding models the observable state the Lightbox methods read and
write: `currentIndex` (a JavaScript number, which the code can drive to
`NaN` via `x % 0`), the modal's `active` CSS class (the open/closed
state), and `document.body.style.overflow === 'hidden'` (the page scroll
lock).  `updateLightbox` is modelled as a function producing either the
rendered view or the `TypeError` that JavaScript raises when the item
lookup `this.items[this.currentIndex]` yields `undefined` and
`item.getAttribute` is then called on it.
-/

/-- A JavaScript number as it arises in the Lightbox code: an integer or
`NaN` (produced by `x % 0`). -/
inductive JSNum where
  | int : Int → JSNum
  | nan : JSNum
deriving DecidableEq, Repr

/-- JavaScript `+` on the numbers above; `NaN` propagates. -/
def jsAdd : JSNum → JSNum → JSNum
  | .int a, .int b => .int (a + b)
  | _, _ => .nan

/-- JavaScript `-` on the numbers above; `NaN` propagates. -/
def jsSub : JSNum → JSNum → JSNum
  | .int a, .int b => .int (a - b)
  | _, _ => .nan

/-- JavaScript `%`: truncated remainder (sign of the dividend), with
`x % 0 = NaN` and `NaN` propagating. -/
def jsRem : JSNum → JSNum → JSNum
  | .int a, .int b => if b = 0 then .nan else .int (Int.tmod a b)
  | _, _ => .nan

/-- The run-time errors relevant here.  The code itself only ever raises
`typeError` (property access on `undefined`); `outOfRange` names the
distinct rejection condition the specification describes for invalid
indices, so the two can be compared. -/
inductive JSError where
  | typeError
  | outOfRange
deriving DecidableEq, Repr

/-- One gallery item (`[data-lightbox-item]` element): the attributes
`updateLightbox` reads.  `none` models a missing attribute/property. -/
structure LightboxItem where
  dataSrc : Option String
  src : Option String
  dataAlt : Option String
  alt : Option String
  dataCaption : Option String
deriving DecidableEq, Repr

/-- JavaScript truthiness of a string-or-null value: `null`/`undefined`
and the empty string are falsy. -/
def strTruthy : Option String → Bool
  | none => false
  | some s => s ≠ ""

/-- JavaScript `a || b` on string-or-null values. -/
def jsOrStr (a b : Option String) : Option String :=
  if strTruthy a then a else b

/-- `this.items[idx]` on the item collection: `undefined` (`none`) for a
negative, too-large or `NaN` index. -/
def itemAt (items : List LightboxItem) : JSNum → Option LightboxItem
  | .int i => if i < 0 then none else items.get? i.toNat
  | .nan => none

/-- The DOM fields `updateLightbox` writes: image source and alt,
caption text, and the two counter text nodes. -/
structure RenderedView where
  imgSrc : Option String
  imgAlt : String
  caption : String
  counterCurrent : JSNum
  counterTotal : Nat
deriving DecidableEq, Repr

/-- `Lightbox.updateLightbox` (scripts.js 267-282): looks up the current
item; if the lookup is `undefined`, the call `item.getAttribute(...)`
raises a `TypeError`; otherwise it writes the rendered fields. -/
def updateLightbox (items : List LightboxItem) (idx : JSNum) :
    Except JSError RenderedView :=
  match itemAt items idx with
  | none => .error .typeError
  | some item =>
      .ok { imgSrc := jsOrStr item.dataSrc item.src
          , imgAlt := (jsOrStr item.dataAlt (jsOrStr item.alt (some ""))).getD ""
          , caption := (jsOrStr item.dataCaption (some "")).getD ""
          , counterCurrent := jsAdd idx (.int 1)
          , counterTotal := items.length }

/-- The mutable state of the Lightbox: `this.currentIndex`, whether the
modal carries the `active` class (the open state), and whether
`document.body.style.overflow` is `'hidden'` (the scroll lock). -/
structure LightboxState where
  currentIndex : JSNum
  modalActive : Bool
  bodyOverflowHidden : Bool
deriving DecidableEq, Repr

/-- The state after the constructor (scripts.js 161-168):
`currentIndex = 0`, modal not active, no scroll lock. -/
def initialState : LightboxState :=
  { currentIndex := .int 0, modalActive := false, bodyOverflowHidden := false }

/-- Result of running one Lightbox method: the state left behind (JS
field writes persist even when a later statement throws), what was
rendered, and the uncaught exception if one escaped. -/
structure StepResult where
  state : LightboxState
  rendered : Option RenderedView
  thrown : Option JSError
deriving DecidableEq, Repr

namespace Lightbox

/-- `Lightbox.open(index)` (scripts.js 245-250): sets
`currentIndex = index` unconditionally, runs `updateLightbox` (which may
throw, in which case the class add and the scroll lock never execute),
then adds the `active` class and sets `overflow = 'hidden'`. -/
def «open» (items : List LightboxItem) (s : LightboxState) (index : JSNum) :
    StepResult :=
  let s1 := { s with currentIndex := index }
  match updateLightbox items index with
  | .error e => { state := s1, rendered := none, thrown := some e }
  | .ok v =>
      { state := { s1 with modalActive := true, bodyOverflowHidden := true }
      , rendered := some v, thrown := none }

/-- `Lightbox.close()` (scripts.js 252-255): removes the `active` class
and restores `overflow = ''`; touches nothing else and cannot throw. -/
def close (s : LightboxState) : StepResult :=
  { state := { s with modalActive := false, bodyOverflowHidden := false }
  , rendered := none, thrown := none }

/-- `Lightbox.next()` (scripts.js 257-260):
`currentIndex = (currentIndex + 1) % items.length` then
`updateLightbox()` (which may throw). -/
def next (items : List LightboxItem) (s : LightboxState) : StepResult :=
  let idx := jsRem (jsAdd s.currentIndex (.int 1)) (.int items.length)
  let s1 := { s with currentIndex := idx }
  match updateLightbox items idx with
  | .error e => { state := s1, rendered := none, thrown := some e }
  | .ok v => { state := s1, rendered := some v, thrown := none }

/-- `Lightbox.prev()` (scripts.js 262-265):
`currentIndex = (currentIndex - 1 + items.length) % items.length` then
`updateLightbox()` (which may throw). -/
def prev (items : List LightboxItem) (s : LightboxState) : StepResult :=
  let idx := jsRem (jsAdd (jsSub s.currentIndex (.int 1)) (.int items.length))
      (.int items.length)
  let s1 := { s with currentIndex := idx }
  match updateLightbox items idx with
  | .error e => { state := s1, rendered := none, thrown := some e }
  | .ok v => { state := s1, rendered := some v, thrown := none }

end Lightbox

/-- The state reached after a Lightbox method, ignoring render output. -/
def nextState (items : List LightboxItem) (s : LightboxState) : LightboxState :=
  (Lightbox.next items s).state

/-- The commands the InputRouter can issue: item click → `open(i)`,
close control/overlay/Escape → `close`, nav controls/arrow keys →
`next`/`prev`. -/
inductive LightboxCmd where
  | openCmd : JSNum → LightboxCmd
  | closeCmd : LightboxCmd
  | nextCmd : LightboxCmd
  | prevCmd : LightboxCmd
deriving DecidableEq, Repr

/-- A command the router can actually produce: the router only calls
`open(i)` with the position of a bound gallery item, so `i` is an
in-range integer; `close`, `next`, `prev` carry no argument. -/
def validCmd (items : List LightboxItem) : LightboxCmd → Bool
  | .openCmd (.int i) => decide (0 ≤ i ∧ i < items.length)
  | .openCmd .nan => false
  | .closeCmd => true
  | .nextCmd => true
  | .prevCmd => true

/-- Run one command against the state. -/
def execCmd (items : List LightboxItem) (s : LightboxState) :
    LightboxCmd → LightboxState
  | .openCmd i => (Lightbox.«open» items s i).state
  | .closeCmd => (Lightbox.close s).state
  | .nextCmd => (Lightbox.next items s).state
  | .prevCmd => (Lightbox.prev items s).state

/-- Run a sequence of commands from a state. -/
def execCmds (items : List LightboxItem) (s : LightboxState) :
    List LightboxCmd → LightboxState
  | [] => s
  | c :: cs => execCmds items (execCmd items s c) cs

/-- `currentIndex` is an integer in `[0, n)`. -/
def indexInRange (n : Nat) (s : LightboxState) : Bool :=
  match s.currentIndex with
  | .int i => decide (0 ≤ i ∧ i < n)
  | .nan => false

/-- A concrete gallery item used to instantiate the general theorems. -/
def sampleItem : LightboxItem :=
  { dataSrc := some "img1.jpg", src := none, dataAlt := some "first"
  , alt := none, dataCaption := some "First" }

section StructuralLemmas

lemma next_state_def (items : List LightboxItem) (s : LightboxState) :
    (Lightbox.next items s).state =
      { s with currentIndex := jsRem (jsAdd s.currentIndex (.int 1)) (.int items.length) } := by
  cases h : updateLightbox items (jsRem (jsAdd s.currentIndex (.int 1)) (.int items.length)) <;>
    simp [Lightbox.next, h]

lemma prev_state_def (items : List LightboxItem) (s : LightboxState) :
    (Lightbox.prev items s).state =
      { s with currentIndex := jsRem (jsAdd (jsSub s.currentIndex (.int 1)) (.int items.length)) (.int items.length) } := by
  cases h : updateLightbox items
      (jsRem (jsAdd (jsSub s.currentIndex (.int 1)) (.int items.length)) (.int items.length)) <;>
    simp [Lightbox.prev, h]

lemma open_state_index (items : List LightboxItem) (s : LightboxState) (idx : JSNum) :
    (Lightbox.«open» items s idx).state.currentIndex = idx := by
  cases h : updateLightbox items idx <;> simp [Lightbox.«open», h]

lemma open_lock_inv (items : List LightboxItem) (s : LightboxState) (idx : JSNum)
    (h : s.bodyOverflowHidden = s.modalActive) :
    (Lightbox.«open» items s idx).state.bodyOverflowHidden =
      (Lightbox.«open» items s idx).state.modalActive := by
  cases h' : updateLightbox items idx <;> simp [Lightbox.«open», h', h]

end StructuralLemmas

section ArithmeticLemmas

lemma jsRem_int_pos (a n : Int) (ha : 0 ≤ a) (hn : 0 < n) :
    jsRem (.int a) (.int n) = .int (a % n) := by
  simp only [jsRem]
  rw [if_neg hn.ne', Int.tmod_eq_emod ha hn.le]

lemma mod_inverse_left (i n : Int) (h0 : 0 ≤ i) (hi : i < n) :
    ((i + 1) % n - 1 + n) % n = i := by
  have h1 : (i + 1) % n - 1 + n = (i + 1) % n + (n - 1) := by ring
  rw [h1, Int.emod_add_emod]
  have h2 : i + 1 + (n - 1) = i + n * 1 := by ring
  rw [h2, Int.add_mul_emod_self_left, Int.emod_eq_of_lt h0 hi]

lemma mod_inverse_right (i n : Int) (h0 : 0 ≤ i) (hi : i < n) :
    ((i - 1 + n) % n + 1) % n = i := by
  rw [Int.emod_add_emod]
  have h2 : i - 1 + n + 1 = i + n * 1 := by ring
  rw [h2, Int.add_mul_emod_self_left, Int.emod_eq_of_lt h0 hi]

end ArithmeticLemmas

section LookupLemmas

lemma itemAt_of_range (items : List LightboxItem) (i : Int)
    (h0 : 0 ≤ i) (hi : i < (items.length : Int)) :
    ∃ it, itemAt items (.int i) = some it := by
  simp only [itemAt]
  rw [if_neg (not_lt.mpr h0)]
  have hlt : i.toNat < items.length := by omega
  exact ⟨items.get ⟨i.toNat, hlt⟩, List.get?_eq_get hlt⟩

lemma itemAt_none_of_out (items : List LightboxItem) (i : Int)
    (h : i < 0 ∨ (items.length : Int) ≤ i) :
    itemAt items (.int i) = none := by
  simp only [itemAt]
  rcases h with h | h
  · rw [if_pos h]
  · have h0 : ¬ i < 0 := by omega
    have h1 : items.length ≤ i.toNat := by omega
    rw [if_neg h0, List.get?_eq_none.mpr h1]

lemma updateLightbox_err (items : List LightboxItem) (idx : JSNum)
    (h : itemAt items idx = none) :
    updateLightbox items idx = .error .typeError := by
  simp [updateLightbox, h]

lemma updateLightbox_ok_of_range (items : List LightboxItem) (i : Int)
    (h0 : 0 ≤ i) (hi : i < (items.length : Int)) :
    ∃ v, updateLightbox items (.int i) = .ok v ∧
      v.counterCurrent = .int (i + 1) ∧ v.counterTotal = items.length := by
  obtain ⟨it, hit⟩ := itemAt_of_range items i h0 hi
  refine ⟨{ imgSrc := jsOrStr it.dataSrc it.src
          , imgAlt := (jsOrStr it.dataAlt (jsOrStr it.alt (some ""))).getD ""
          , caption := (jsOrStr it.dataCaption (some "")).getD ""
          , counterCurrent := jsAdd (.int i) (.int 1)
          , counterTotal := items.length }, ?_, ?_, rfl⟩
  · simp [updateLightbox, hit]
  · simp [jsAdd]

end LookupLemmas

section IndexFormulas

lemma next_index_formula (items : List LightboxItem) (s : LightboxState) (i : Int)
    (hn : 0 < items.length) (hs : s.currentIndex = .int i) (h0 : 0 ≤ i) :
    (Lightbox.next items s).state.currentIndex = .int ((i + 1) % (items.length : Int)) := by
  have hlen : (0 : Int) < items.length := by exact_mod_cast hn
  rw [next_state_def]
  simp only [hs, jsAdd]
  exact jsRem_int_pos _ _ (by omega) hlen

lemma prev_index_formula (items : List LightboxItem) (s : LightboxState) (i : Int)
    (hn : 0 < items.length) (hs : s.currentIndex = .int i) (h0 : 0 ≤ i) :
    (Lightbox.prev items s).state.currentIndex =
      .int ((i - 1 + items.length) % (items.length : Int)) := by
  have hlen : (0 : Int) < items.length := by exact_mod_cast hn
  rw [prev_state_def]
  simp only [hs, jsSub, jsAdd]
  exact jsRem_int_pos _ _ (by omega) hlen

end IndexFormulas

section InvariantLemmas

lemma indexInRange_iff (n : Nat) (s : LightboxState) :
    indexInRange n s = true ↔
      ∃ i : Int, s.currentIndex = .int i ∧ 0 ≤ i ∧ i < n := by
  cases h : s.currentIndex with
  | int i => simp [indexInRange, h]
  | nan => simp [indexInRange, h]

lemma close_state_index (s : LightboxState) :
    (Lightbox.close s).state.currentIndex = s.currentIndex := rfl

lemma execCmd_preserves_range (items : List LightboxItem) (hn : 0 < items.length)
    (s : LightboxState) (c : LightboxCmd)
    (hc : validCmd items c = true) (hs : indexInRange items.length s = true) :
    indexInRange items.length (execCmd items s c) = true := by
  have hlen : (0 : Int) < items.length := by exact_mod_cast hn
  obtain ⟨i, hi, h0, hlt⟩ := (indexInRange_iff _ _).mp hs
  cases c with
  | openCmd idx =>
      cases idx with
      | int j =>
          have hj : 0 ≤ j ∧ j < (items.length : Int) := by
            simpa [validCmd] using hc
          exact (indexInRange_iff _ _).mpr
            ⟨j, open_state_index items s (.int j), hj.1, hj.2⟩
      | nan => simp [validCmd] at hc
  | closeCmd =>
      exact (indexInRange_iff _ _).mpr ⟨i, by simpa [execCmd, close_state_index] using hi, h0, hlt⟩
  | nextCmd =>
      refine (indexInRange_iff _ _).mpr ⟨(i + 1) % (items.length : Int), ?_, ?_, ?_⟩
      · exact next_index_formula items s i hn hi h0
      · exact Int.emod_nonneg _ hlen.ne'
      · exact Int.emod_lt_of_pos _ hlen
  | prevCmd =>
      refine (indexInRange_iff _ _).mpr ⟨(i - 1 + items.length) % (items.length : Int), ?_, ?_, ?_⟩
      · exact prev_index_formula items s i hn hi h0
      · exact Int.emod_nonneg _ hlen.ne'
      · exact Int.emod_lt_of_pos _ hlen

lemma execCmds_preserves_range (items : List LightboxItem) (hn : 0 < items.length) :
    ∀ (cmds : List LightboxCmd) (s : LightboxState),
      cmds.all (validCmd items) = true →
      indexInRange items.length s = true →
      indexInRange items.length (execCmds items s cmds) = true := by
  intro cmds
  induction cmds with
  | nil => intro s _ hs; exact hs
  | cons c cs ih =>
      intro s hall hs
      rw [List.all_cons, Bool.and_eq_true] at hall
      exact ih _ hall.2 (execCmd_preserves_range items hn s c hall.1 hs)

lemma execCmd_preserves_lock (items : List LightboxItem) (s : LightboxState)
    (c : LightboxCmd) (h : s.bodyOverflowHidden = s.modalActive) :
    (execCmd items s c).bodyOverflowHidden = (execCmd items s c).modalActive := by
  cases c with
  | openCmd idx => exact open_lock_inv items s idx h
  | closeCmd => rfl
  | nextCmd => simpa [execCmd, next_state_def] using h
  | prevCmd => simpa [execCmd, prev_state_def] using h

lemma execCmds_preserves_lock (items : List LightboxItem) :
    ∀ (cmds : List LightboxCmd) (s : LightboxState),
      s.bodyOverflowHidden = s.modalActive →
      (execCmds items s cmds).bodyOverflowHidden = (execCmds items s cmds).modalActive := by
  intro cmds
  induction cmds with
  | nil => intro s hs; exact hs
  | cons c cs ih => intro s hs; exact ih _ (execCmd_preserves_lock items s c hs)

end InvariantLemmas

section IterateLemmas

lemma iterate_next_formula (items : List LightboxItem) (hn : 0 < items.length)
    (i : Int) (h0 : 0 ≤ i) (hi : i < (items.length : Int)) :
    ∀ (k : Nat) (s : LightboxState), s.currentIndex = .int i →
      ((nextState items)^[k] s).currentIndex = .int ((i + k) % (items.length : Int)) := by
  have hlen : (0 : Int) < items.length := by exact_mod_cast hn
  intro k
  induction k with
  | zero =>
      intro s hs
      simp only [Function.iterate_zero, id_eq, hs, Nat.cast_zero, add_zero]
      rw [Int.emod_eq_of_lt h0 hi]
  | succ k ih =>
      intro s hs
      rw [Function.iterate_succ_apply']
      have hmem : 0 ≤ (i + k) % (items.length : Int) := Int.emod_nonneg _ hlen.ne'
      have hstep := next_index_formula items ((nextState items)^[k] s)
        ((i + k) % (items.length : Int)) hn (ih s hs) hmem
      show (Lightbox.next items ((nextState items)^[k] s)).state.currentIndex = _
      rw [hstep, Int.emod_add_emod]
      congr 2
      push_cast
      ring

end IterateLemmas

/-- Claim C1, counterexample: with zero items, `next()` and `prev()` are
not no-ops — each changes `currentIndex` (to `NaN`, via `x % 0`) and an
exception escapes (`TypeError` from `updateLightbox`), so the claimed
guarded no-op behaviour is false on the code. -/
theorem next_zero_items_counterexample :
    (Lightbox.next ([] : List LightboxItem) initialState).thrown ≠ none ∧
    (Lightbox.next ([] : List LightboxItem) initialState).state.currentIndex ≠
      initialState.currentIndex ∧
    (Lightbox.prev ([] : List LightboxItem) initialState).thrown ≠ none ∧
    (Lightbox.prev ([] : List LightboxItem) initialState).state.currentIndex ≠
      initialState.currentIndex := by
  decide

/-- Claim C1, amended: with zero items, `next()` and `prev()` are
unguarded — `currentIndex` becomes `NaN` (JavaScript `x % 0`), a
`TypeError` escapes from `updateLightbox` (the item lookup is
`undefined`), while the modal's open state and the scroll lock are left
unchanged. -/
theorem next_prev_zero_items_unguarded (s : LightboxState) :
    (Lightbox.next [] s).state.currentIndex = JSNum.nan ∧
    (Lightbox.next [] s).thrown = some JSError.typeError ∧
    (Lightbox.next [] s).state.modalActive = s.modalActive ∧
    (Lightbox.next [] s).state.bodyOverflowHidden = s.bodyOverflowHidden ∧
    (Lightbox.prev [] s).state.currentIndex = JSNum.nan ∧
    (Lightbox.prev [] s).thrown = some JSError.typeError ∧
    (Lightbox.prev [] s).state.modalActive = s.modalActive ∧
    (Lightbox.prev [] s).state.bodyOverflowHidden = s.bodyOverflowHidden := by
  cases h : s.currentIndex <;>
    simp [Lightbox.next, Lightbox.prev, jsAdd, jsSub, jsRem, updateLightbox, itemAt, h]

/-- Claim C2: from any in-range index `i` with `itemCount > 0`, `next()`
sets `currentIndex` to `(i + 1) mod itemCount` and `prev()` sets it to
`(i - 1 + itemCount) mod itemCount`. -/
theorem next_prev_follow_mod (items : List LightboxItem) (s : LightboxState) (i : Int)
    (hn : 0 < items.length) (hs : s.currentIndex = .int i)
    (h0 : 0 ≤ i) (hi : i < (items.length : Int)) :
    (Lightbox.next items s).state.currentIndex = .int ((i + 1) % (items.length : Int)) ∧
    (Lightbox.prev items s).state.currentIndex =
      .int ((i - 1 + items.length) % (items.length : Int)) := by
  exact ⟨next_index_formula items s i hn hs h0, prev_index_formula items s i hn hs h0⟩

/-- Witness for C2 at three items from index 0. -/
theorem next_prev_follow_mod_witness :
    (Lightbox.next [sampleItem, sampleItem, sampleItem] initialState).state.currentIndex =
      .int ((0 + 1) % (([sampleItem, sampleItem, sampleItem].length : Int))) ∧
    (Lightbox.prev [sampleItem, sampleItem, sampleItem] initialState).state.currentIndex =
      .int ((0 - 1 + [sampleItem, sampleItem, sampleItem].length) %
        (([sampleItem, sampleItem, sampleItem].length : Int))) :=
  next_prev_follow_mod [sampleItem, sampleItem, sampleItem] initialState 0
    (by decide) rfl (by decide) (by decide)

/-- Claim C3: `open(i)` with a valid index sets `currentIndex = i`,
activates the modal (`isOpen = true`), and renders the counter pair
`(i + 1, itemCount)`. -/
theorem open_valid_state_and_counter (items : List LightboxItem) (s : LightboxState)
    (i : Int) (h0 : 0 ≤ i) (hi : i < (items.length : Int)) :
    (Lightbox.«open» items s (.int i)).state.currentIndex = .int i ∧
    (Lightbox.«open» items s (.int i)).state.modalActive = true ∧
    ∃ v, (Lightbox.«open» items s (.int i)).rendered = some v ∧
      v.counterCurrent = .int (i + 1) ∧ v.counterTotal = items.length := by
  obtain ⟨v, hok, hc, ht⟩ := updateLightbox_ok_of_range items i h0 hi
  refine ⟨open_state_index items s (.int i), ?_, v, ?_, hc, ht⟩
  · simp [Lightbox.«open», hok]
  · simp [Lightbox.«open», hok]

/-- Witness for C3 opening index 1 of a two-item gallery. -/
theorem open_valid_state_and_counter_witness :
    (Lightbox.«open» [sampleItem, sampleItem] initialState (.int 1)).state.currentIndex =
      .int 1 ∧
    (Lightbox.«open» [sampleItem, sampleItem] initialState (.int 1)).state.modalActive = true ∧
    ∃ v, (Lightbox.«open» [sampleItem, sampleItem] initialState (.int 1)).rendered = some v ∧
      v.counterCurrent = .int (1 + 1) ∧ v.counterTotal = [sampleItem, sampleItem].length :=
  open_valid_state_and_counter [sampleItem, sampleItem] initialState 1
    (by decide) (by decide)

/-- Claim C4: when `itemCount > 0`, the invariant
`0 ≤ currentIndex < itemCount` holds in the constructor's initial state
and is preserved by every sequence of router-produced operations
(`open` with an in-range index, `close`, `next`, `prev`). -/
theorem router_preserves_index_invariant (items : List LightboxItem)
    (hn : 0 < items.length) (cmds : List LightboxCmd)
    (hv : cmds.all (validCmd items) = true) :
    indexInRange items.length initialState = true ∧
    indexInRange items.length (execCmds items initialState cmds) = true := by
  have h0 : indexInRange items.length initialState = true :=
    (indexInRange_iff _ _).mpr ⟨0, rfl, le_refl 0, by exact_mod_cast hn⟩
  exact ⟨h0, execCmds_preserves_range items hn cmds initialState hv h0⟩

/-- Witness for C4 on a two-item gallery with a sample command sequence. -/
theorem router_preserves_index_invariant_witness :
    indexInRange [sampleItem, sampleItem].length initialState = true ∧
    indexInRange [sampleItem, sampleItem].length
      (execCmds [sampleItem, sampleItem] initialState
        [.openCmd (.int 1), .nextCmd, .prevCmd, .closeCmd]) = true :=
  router_preserves_index_invariant [sampleItem, sampleItem] (by decide)
    [.openCmd (.int 1), .nextCmd, .prevCmd, .closeCmd] (by decide)

/-- Claim C5: from any in-range index with `itemCount > 0`, `next()`
then `prev()` restores `currentIndex`, and `prev()` then `next()`
restores it too. -/
theorem next_prev_inverse (items : List LightboxItem) (s : LightboxState) (i : Int)
    (hn : 0 < items.length) (hs : s.currentIndex = .int i)
    (h0 : 0 ≤ i) (hi : i < (items.length : Int)) :
    (Lightbox.prev items (Lightbox.next items s).state).state.currentIndex =
      s.currentIndex ∧
    (Lightbox.next items (Lightbox.prev items s).state).state.currentIndex =
      s.currentIndex := by
  have hlen : (0 : Int) < items.length := by exact_mod_cast hn
  constructor
  · have h1 := next_index_formula items s i hn hs h0
    have h2 := prev_index_formula items (Lightbox.next items s).state
      ((i + 1) % (items.length : Int)) hn h1 (Int.emod_nonneg _ hlen.ne')
    rw [h2, mod_inverse_left i (items.length : Int) h0 hi, hs]
  · have h1 := prev_index_formula items s i hn hs h0
    have h2 := next_index_formula items (Lightbox.prev items s).state
      ((i - 1 + items.length) % (items.length : Int)) hn h1 (Int.emod_nonneg _ hlen.ne')
    rw [h2, mod_inverse_right i (items.length : Int) h0 hi, hs]

/-- Witness for C5 at a two-item gallery from index 0. -/
theorem next_prev_inverse_witness :
    (Lightbox.prev [sampleItem, sampleItem]
        (Lightbox.next [sampleItem, sampleItem] initialState).state).state.currentIndex =
      initialState.currentIndex ∧
    (Lightbox.next [sampleItem, sampleItem]
        (Lightbox.prev [sampleItem, sampleItem] initialState).state).state.currentIndex =
      initialState.currentIndex :=
  next_prev_inverse [sampleItem, sampleItem] initialState 0
    (by decide) rfl (by decide) (by decide)

/-- Claim C6: from any in-range index with `itemCount > 0`, iterating
`next()` exactly `itemCount` times returns `currentIndex` to its
original value. -/
theorem next_cycle_restores_index (items : List LightboxItem) (s : LightboxState)
    (i : Int) (hn : 0 < items.length) (hs : s.currentIndex = .int i)
    (h0 : 0 ≤ i) (hi : i < (items.length : Int)) :
    ((nextState items)^[items.length] s).currentIndex = s.currentIndex := by
  rw [iterate_next_formula items hn i h0 hi items.length s hs]
  rw [show i + ((items.length : Nat) : Int) = i + (items.length : Int) * 1 by ring,
    Int.add_mul_emod_self_left, Int.emod_eq_of_lt h0 hi, hs]

/-- Witness for C6: three `next()` calls on a three-item gallery. -/
theorem next_cycle_restores_index_witness :
    ((nextState [sampleItem, sampleItem, sampleItem])^[
        [sampleItem, sampleItem, sampleItem].length] initialState).currentIndex =
      initialState.currentIndex :=
  next_cycle_restores_index [sampleItem, sampleItem, sampleItem] initialState 0
    (by decide) rfl (by decide) (by decide)

/-- Claim C7: `close()` is idempotent — a second `close()` produces
exactly the result of the first; `close()` never throws; and calling it
in an already-closed state (modal inactive, scroll lock released) is a
no-op on the state. -/
theorem close_idempotent_no_error (s : LightboxState) :
    Lightbox.close (Lightbox.close s).state = Lightbox.close s ∧
    (Lightbox.close s).thrown = none ∧
    (s.modalActive = false → s.bodyOverflowHidden = false →
      (Lightbox.close s).state = s) := by
  refine ⟨rfl, rfl, ?_⟩
  intro h1 h2
  cases s
  simp_all [Lightbox.close]

/-- Witness for C7 at the initial (closed) state. -/
theorem close_idempotent_no_error_witness :
    Lightbox.close (Lightbox.close initialState).state = Lightbox.close initialState ∧
    (Lightbox.close initialState).state = initialState :=
  ⟨(close_idempotent_no_error initialState).1,
    (close_idempotent_no_error initialState).2.2 rfl rfl⟩

/-- Claim C8, counterexample: `open(5)` on a one-item gallery does not
fail with the `OutOfRange` condition the specification names — the
escaping exception is the `TypeError` raised by `updateLightbox` when
the item lookup is `undefined`. -/
theorem open_out_of_range_counterexample :
    (Lightbox.«open» [sampleItem] initialState (.int 5)).thrown ≠
      some JSError.outOfRange ∧
    (Lightbox.«open» [sampleItem] initialState (.int 5)).thrown =
      some JSError.typeError := by
  decide

/-- Claim C8, amended: `open(index)` with an out-of-range index throws a
`TypeError` from `updateLightbox` (not a validated `OutOfRange`
rejection); it neither clamps nor wraps — `currentIndex` is left equal
to the raw out-of-range index, the modal is not activated, and nothing
is rendered. -/
theorem open_out_of_range_throws (items : List LightboxItem) (s : LightboxState)
    (i : Int) (h : i < 0 ∨ (items.length : Int) ≤ i) :
    (Lightbox.«open» items s (.int i)).thrown = some JSError.typeError ∧
    (Lightbox.«open» items s (.int i)).state.currentIndex = .int i ∧
    (Lightbox.«open» items s (.int i)).state.modalActive = s.modalActive ∧
    (Lightbox.«open» items s (.int i)).rendered = none := by
  have herr := updateLightbox_err items (.int i) (itemAt_none_of_out items i h)
  simp [Lightbox.«open», herr]

/-- Witness for C8's amended theorem at index 5 of a one-item gallery. -/
theorem open_out_of_range_throws_witness :
    (Lightbox.«open» [sampleItem] initialState (.int 5)).thrown =
      some JSError.typeError ∧
    (Lightbox.«open» [sampleItem] initialState (.int 5)).state.currentIndex = .int 5 ∧
    (Lightbox.«open» [sampleItem] initialState (.int 5)).state.modalActive =
      initialState.modalActive ∧
    (Lightbox.«open» [sampleItem] initialState (.int 5)).rendered = none :=
  open_out_of_range_throws [sampleItem] initialState 5 (Or.inr (by decide))

/-- Claim C9: `open(i)` with a valid index acquires the scroll lock and
activates the modal, `close()` releases both, and after any sequence of
router commands from the initial state the scroll-lock state equals the
open state. -/
theorem scroll_lock_matches_modal :
    (∀ (items : List LightboxItem) (s : LightboxState) (i : Int),
        0 ≤ i → i < (items.length : Int) →
        (Lightbox.«open» items s (.int i)).state.bodyOverflowHidden = true ∧
        (Lightbox.«open» items s (.int i)).state.modalActive = true) ∧
    (∀ s : LightboxState,
        (Lightbox.close s).state.bodyOverflowHidden = false ∧
        (Lightbox.close s).state.modalActive = false) ∧
    ∀ (items : List LightboxItem) (cmds : List LightboxCmd),
      (execCmds items initialState cmds).bodyOverflowHidden =
        (execCmds items initialState cmds).modalActive := by
  refine ⟨?_, fun s => ⟨rfl, rfl⟩, fun items cmds =>
    execCmds_preserves_lock items cmds initialState rfl⟩
  intro items s i h0 hi
  obtain ⟨v, hok, _, _⟩ := updateLightbox_ok_of_range items i h0 hi
  constructor <;> simp [Lightbox.«open», hok]

/-- Witness for C9: opening index 0 of a one-item gallery sets both the
scroll lock and the open state. -/
theorem scroll_lock_matches_modal_witness :
    (Lightbox.«open» [sampleItem] initialState (.int 0)).state.bodyOverflowHidden = true ∧
    (Lightbox.«open» [sampleItem] initialState (.int 0)).state.modalActive = true :=
  scroll_lock_matches_modal.1 [sampleItem] initialState 0 (le_refl 0) (by decide)

/-- Claim C10: `close()` leaves `currentIndex` unchanged, so a `next()`
or `prev()` issued after `close()` computes the same index it would have
computed before the close. -/
theorem close_preserves_currentIndex (items : List LightboxItem) (s : LightboxState) :
    (Lightbox.close s).state.currentIndex = s.currentIndex ∧
    (Lightbox.next items (Lightbox.close s).state).state.currentIndex =
      (Lightbox.next items s).state.currentIndex ∧
    (Lightbox.prev items (Lightbox.close s).state).state.currentIndex =
      (Lightbox.prev items s).state.currentIndex := by
  refine ⟨rfl, ?_, ?_⟩
  · simp [next_state_def, Lightbox.close]
  · simp [prev_state_def, Lightbox.close]
